import Mathlib

/-!
Shallow embedding of the passkey ceremony core of the `slh` repository
(`src/pw2`): the WebAuthn registration/authentication handlers
(`src/pw2/src/backend/handlers_unauth.rs`), the ceremony helper functions
(`src/pw2/src/utils/webauthn.rs`) and the session guard
(`src/pw2/src/backend/middlewares.rs`).

Modelling conventions:
- The process-wide mutable maps (`REGISTRATION_STATES`, `AUTHENTICATION_STATES`,
  `CREDENTIAL_STORE`) and the user database become fields of an explicit
  `ServerState` record threaded through the handlers.
- Maps are association lists keyed by `String` with `HashMap` semantics
  (`insertKey` replaces an existing binding, `removeKey` deletes it).
- Sources of randomness (`Uuid::new_v4()`, the library's challenge generator)
  and the wall clock become explicit oracle parameters of the begin handlers.
- Byte strings (challenges, credential ids, public keys, signatures) are
  modelled as `Nat`; the relying-party-id hash is abstracted as the id itself;
  signature verification is abstracted as equality of the response's signature
  field with the enrolled public key.
- Fallible Rust code returns `Except`; HTTP rejections are `(status, message)`
  pairs exactly as built in the handlers.
-/

namespace Slh

/-- HTTP-level rejection: status code and message, as produced by the Axum
handlers in `handlers_unauth.rs`. -/
abbrev HttpError := Nat × String

/-- Association-list lookup with `HashMap::get` semantics. -/
def lookupKey {α : Type} (k : String) : List (String × α) → Option α
  | [] => none
  | (k', v) :: rest => if k' = k then some v else lookupKey k rest

/-- Association-list removal with `HashMap::remove` semantics. -/
def removeKey {α : Type} (k : String) : List (String × α) → List (String × α)
  | [] => []
  | (k', v) :: rest => if k' = k then removeKey k rest else (k', v) :: removeKey k rest

/-- Association-list insertion with `HashMap::insert` semantics: an existing
binding under the same key is replaced. -/
def insertKey {α : Type} (k : String) (v : α) (m : List (String × α)) : List (String × α) :=
  (k, v) :: removeKey k m

theorem lookupKey_insertKey_self {α : Type} (k : String) (v : α) (m : List (String × α)) :
    lookupKey k (insertKey k v m) = some v := by
  simp [insertKey, lookupKey]

theorem lookupKey_removeKey_self {α : Type} (k : String) (m : List (String × α)) :
    lookupKey k (removeKey k m) = none := by
  induction m with
  | nil => simp [removeKey, lookupKey]
  | cons kv rest ih =>
    obtain ⟨k', v⟩ := kv
    by_cases h : k' = k
    · simpa [removeKey, h] using ih
    · simpa [removeKey, h, lookupKey] using ih

theorem lookupKey_removeKey_ne {α : Type} (k k' : String) (m : List (String × α))
    (h : k' ≠ k) : lookupKey k' (removeKey k m) = lookupKey k' m := by
  induction m with
  | nil => simp [removeKey, lookupKey]
  | cons kv rest ih =>
    obtain ⟨k0, v⟩ := kv
    have hks : k ≠ k' := Ne.symm h
    by_cases hk : k0 = k
    · simpa [removeKey, hk, lookupKey, hks] using ih
    · by_cases hkv : k0 = k'
      · simp [removeKey, hk, lookupKey, hkv, h]
      · simpa [removeKey, hk, lookupKey, hkv] using ih

theorem lookupKey_insertKey_ne {α : Type} (k k' : String) (v : α) (m : List (String × α))
    (h : k' ≠ k) : lookupKey k' (insertKey k v m) = lookupKey k' m := by
  have hne : k ≠ k' := fun hh => h hh.symm
  simp only [insertKey, lookupKey, hne, if_neg]
  exact lookupKey_removeKey_ne k k' m h

/-- An enrolled credential, as stored in `CREDENTIAL_STORE` and in the user
database (`webauthn_rs::prelude::Passkey`): credential id, public key and
signature counter.  Byte strings are modelled as `Nat`. -/
structure Passkey where
  credId : Nat
  publicKey : Nat
  counter : Nat
deriving DecidableEq, Repr

/-- Server-side state of an in-flight registration ceremony
(`webauthn_rs::prelude::PasskeyRegistration`, as stored in
`REGISTRATION_STATES`): the issued challenge and the credential ids excluded
at begin time.  `createdAt`/`timeout` record when the ceremony began and the
timeout the library put into the options payload (spec §3
RegistrationCeremonyState); the completion path never reads them. -/
structure PasskeyRegistration where
  challenge : Nat
  excludedCredIds : List Nat
  createdAt : Nat
  timeout : Nat
deriving DecidableEq, Repr

/-- Server-side state of an in-flight authentication ceremony
(`webauthn_rs::prelude::PasskeyAuthentication`, as stored in
`AUTHENTICATION_STATES`): the issued challenge and the passkeys allowed at
begin time (the library clones the enrolled passkey, counter included, into
this state).  `createdAt`/`timeout` as in `PasskeyRegistration`. -/
structure PasskeyAuthentication where
  challenge : Nat
  allowedCreds : List Passkey
  createdAt : Nat
  timeout : Nat
deriving DecidableEq, Repr

/-- The client's response to a registration ceremony
(`webauthn_rs::prelude::RegisterPublicKeyCredential`), reduced to the fields
the verification inspects: embedded origin, relying-party-id hash (abstracted
as the id string itself), embedded challenge, new credential id and public
key, whether the attestation object parses and is acceptable, and the
signature counter reported by the attestation statement (none when the
authenticator does not report one). -/
structure RegisterPublicKeyCredential where
  origin : String
  rpIdHash : String
  challenge : Nat
  credId : Nat
  publicKey : Nat
  attestationOk : Bool
  attestationCounter : Option Nat
deriving DecidableEq, Repr

/-- The client's response to an authentication ceremony
(`webauthn_rs::prelude::PublicKeyCredential`), reduced to the fields the
verification inspects.  Signature verification is abstracted: the signature
verifies exactly when `signature` equals the enrolled public key. -/
structure PublicKeyCredential where
  origin : String
  rpIdHash : String
  challenge : Nat
  credId : Nat
  signature : Nat
  userPresence : Bool
  counter : Nat
deriving DecidableEq, Repr

/-- Typed verification failures (spec §7 error taxonomy / webauthn-rs errors). -/
inductive WebauthnError where
  | OriginMismatch
  | RpIdMismatch
  | ChallengeMismatch
  | AttestationRejected
  | CredentialAlreadyExcluded
  | UnknownCredential
  | SignatureVerificationFailed
  | UserPresenceRequired
  | CounterRegressionDetected
deriving DecidableEq, Repr

/-- What `finish_passkey_authentication` returns on success: the credential
that verified and the counter the response reported (the library hands this
to the caller so the caller can update the stored counter). -/
structure AuthenticationResult where
  credId : Nat
  counter : Nat
deriving DecidableEq, Repr

/-- Relying-party id configured in `src/pw2/src/utils/webauthn.rs` line 16. -/
def rpId : String := "localhost"

/-- Relying-party origin configured in `src/pw2/src/utils/webauthn.rs` line 17. -/
def rpOrigin : String := "http://localhost:8080"

/-- Default ceremony timeout (milliseconds) the library writes into the
options payload. -/
def defaultTimeout : Nat := 60000

/-- Modelled from the spec: `Webauthn::finish_passkey_registration` is
webauthn-rs library code outside this repository.  Spec §4.3
`complete_registration` lists its checks in order: origin equality,
relying-party-id hash, challenge equality, attestation acceptability,
credential id not excluded; on success the credential is built with the
counter from the attestation statement or zero. -/
def finish_passkey_registration (response : RegisterPublicKeyCredential)
    (state : PasskeyRegistration) : Except WebauthnError Passkey :=
  if response.origin ≠ rpOrigin then .error .OriginMismatch
  else if response.rpIdHash ≠ rpId then .error .RpIdMismatch
  else if response.challenge ≠ state.challenge then .error .ChallengeMismatch
  else if ¬ response.attestationOk then .error .AttestationRejected
  else if response.credId ∈ state.excludedCredIds then .error .CredentialAlreadyExcluded
  else .ok { credId := response.credId
             publicKey := response.publicKey
             counter := response.attestationCounter.getD 0 }

/-- Modelled from the spec: `Webauthn::finish_passkey_authentication` is
webauthn-rs library code outside this repository.  Spec §4.3
`complete_authentication` lists its checks in order: origin,
relying-party-id hash, challenge equality, credential membership in the
allowed list, signature under the enrolled public key, user presence, and
the counter rule (zero accepted unconditionally, otherwise strictly greater
than the stored counter, else `CounterRegressionDetected`). -/
def finish_passkey_authentication (response : PublicKeyCredential)
    (state : PasskeyAuthentication) : Except WebauthnError AuthenticationResult :=
  if response.origin ≠ rpOrigin then .error .OriginMismatch
  else if response.rpIdHash ≠ rpId then .error .RpIdMismatch
  else if response.challenge ≠ state.challenge then .error .ChallengeMismatch
  else
    match state.allowedCreds.find? (fun pk => pk.credId == response.credId) with
    | none => .error .UnknownCredential
    | some cred =>
      if response.signature ≠ cred.publicKey then .error .SignatureVerificationFailed
      else if ¬ response.userPresence then .error .UserPresenceRequired
      else if response.counter = 0 ∨ cred.counter < response.counter then
        .ok { credId := cred.credId, counter := response.counter }
      else .error .CounterRegressionDetected

/-- From `src/pw2/src/utils/webauthn.rs` lines 35-73 (`begin_registration`):
reads the credential store to exclude the user's known passkey, then starts
the library registration ceremony.  The fresh challenge (library randomness)
and the wall clock are oracle parameters; the JSON options payload returned
to the client is not modelled, only the server-side state. -/
def begin_registration (user_email : String) ( _user_display_name : String)
    (store : List (String × Passkey)) (challenge : Nat) (now : Nat) : PasskeyRegistration :=
  let exclude_credentials := (lookupKey user_email store).map (fun pk => [pk.credId])
  { challenge := challenge
    excludedCredIds := exclude_credentials.getD []
    createdAt := now
    timeout := defaultTimeout }

/-- From `src/pw2/src/utils/webauthn.rs` lines 76-97 (`complete_registration`):
runs the library verification and, on success, inserts the new passkey into
the credential store itself before returning unit.  The store is threaded
explicitly (in the source it is the global `CREDENTIAL_STORE`); on failure
it is returned unchanged.  The handler stores `PasskeyRegistration` values
directly, so the `StoredRegistrationState` wrapper (whose extra `challenge`
field is never read, line 81) is elided. -/
def complete_registration (user_email : String) (response : RegisterPublicKeyCredential)
    (stored_state : PasskeyRegistration) (store : List (String × Passkey)) :
    Except WebauthnError Unit × List (String × Passkey) :=
  match finish_passkey_registration response stored_state with
  | .error e => (.error e, store)
  | .ok passkey => (.ok (), insertKey user_email passkey store)

/-- From `src/pw2/src/utils/webauthn.rs` lines 100-121 (`begin_authentication`):
builds the allowed-credential list from the credential store (empty when the
user has no stored passkey) and starts the library authentication ceremony.
Challenge and clock are oracle parameters; the JSON options payload is not
modelled. -/
def begin_authentication (user_email : String) (store : List (String × Passkey))
    (challenge : Nat) (now : Nat) : PasskeyAuthentication :=
  let allowed_credentials := ((lookupKey user_email store).map (fun pk => [pk])).getD []
  { challenge := challenge
    allowedCreds := allowed_credentials
    createdAt := now
    timeout := defaultTimeout }

/-- From `src/pw2/src/utils/webauthn.rs` lines 124-136 (`complete_authentication`):
runs the library verification, discards its result and returns unit.  The
`server_challenge` parameter is declared in the source (line 127) and never
used (the TODO on line 129 notes the library already verifies the
challenge). -/
def complete_authentication (response : PublicKeyCredential)
    (state : PasskeyAuthentication) ( _server_challenge : String) :
    Except WebauthnError Unit :=
  match finish_passkey_authentication response state with
  | .error e => .error e
  | .ok _ => .ok ()

/-- Modelled from the spec: the `crate::database::user` module is not under
`src/`.  Spec §6 gives the contracts `CredentialDirectory.get/put` and
`IdentityDirectory.isEnrolled/isVerified`; a user row carries the profile
fields written by `user::create`, the `verified` flag consulted by
`login_begin`, and the optional passkey written by `user::set_passkey`. -/
structure UserRecord where
  firstName : String
  lastName : String
  verified : Bool
  passkey : Option Passkey
deriving DecidableEq, Repr

/-- Modelled from the spec: `user::exists` (database module, not under
`src/`) reports whether a user row exists; database failure is not
modelled, so the `Result` wrapper of the Rust signature is elided. -/
def userExists (email : String) (users : List (String × UserRecord)) : Bool :=
  (lookupKey email users).isSome

/-- Modelled from the spec: `user::get_passkey` returns the stored passkey
of the user row, if any. -/
def user_get_passkey (email : String) (users : List (String × UserRecord)) : Option Passkey :=
  (lookupKey email users).bind (fun u => u.passkey)

/-- Modelled from the spec: `user::create` inserts a fresh, unverified user
row without a passkey. -/
def user_create (email first_name last_name : String)
    (users : List (String × UserRecord)) : List (String × UserRecord) :=
  insertKey email
    { firstName := first_name, lastName := last_name, verified := false, passkey := none }
    users

/-- Modelled from the spec: `user::set_passkey` updates the passkey column of
an existing user row; it fails (`none`) when the row is absent. -/
def user_set_passkey (email : String) (pk : Passkey)
    (users : List (String × UserRecord)) : Option (List (String × UserRecord)) :=
  match lookupKey email users with
  | none => none
  | some u => some (insertKey email { u with passkey := some pk } users)

/-- A value stored in a `tower_sessions::Session` under a string key: the
session serializes arbitrary JSON, of which the code stores booleans; other
shapes are kept so that `session.get::<bool>` can fail to deserialize. -/
inductive SessionValue where
  | b : Bool → SessionValue
  | s : String → SessionValue
deriving DecidableEq, Repr

/-- A request session: a keyed store of session values. -/
abbrev Session := List (String × SessionValue)

/-- `session.get::<bool>(key)`: some boolean exactly when the key is present
and holds a boolean (a non-boolean value is a deserialization error, which
the call sites collapse to `None` via `unwrap_or_default`). -/
def sessionGetBool (key : String) (session : Session) : Option Bool :=
  match lookupKey key session with
  | some (.b x) => some x
  | _ => none

/-- The mutable server-side state the `pw2` handlers touch: the two ceremony
state maps (`REGISTRATION_STATES`, `AUTHENTICATION_STATES` in
`handlers_unauth.rs` lines 25-26), the in-memory credential store
(`CREDENTIAL_STORE` in `webauthn.rs` line 26) and the user database. -/
structure ServerState where
  regStates : List (String × PasskeyRegistration)
  authStates : List (String × PasskeyAuthentication)
  credStore : List (String × Passkey)
  users : List (String × UserRecord)
deriving DecidableEq, Repr

/-- From `src/pw2/src/backend/handlers_unauth.rs` lines 29-38
(`ensure_store_contains_known_user_passkey`): if the credential store has no
entry for the email, copy the passkey from the user database when one is
stored there. -/
def ensure_store_contains_known_user_passkey (email : String) (st : ServerState) : ServerState :=
  match lookupKey email st.credStore with
  | some _ => st
  | none =>
    match user_get_passkey email st.users with
    | some passkey => { st with credStore := insertKey email passkey st.credStore }
    | none => st

/-- Request body of `register_begin`, after boundary parsing: `email` is the
`email` field when present and accepted by `UserEmail::try_new` (the
validation itself is abstracted), `reset_mode` the optional boolean field. -/
structure RegisterBeginPayload where
  email : Option String
  reset_mode : Option Bool
deriving DecidableEq, Repr

/-- The validity match of `register_begin` (`handlers_unauth.rs` lines 55-59):
reset mode requires the user to exist, normal mode requires the user not to
exist; every other combination is invalid.  `user::exists` is modelled as
never failing, so the `Err` arm of its Rust `Result` is absent. -/
def registrationRequestValid (reset_mode : Bool) (user_exists : Bool) : Bool :=
  match reset_mode, user_exists with
  | true, true => true
  | false, false => true
  | _, _ => false

/-- From `src/pw2/src/backend/handlers_unauth.rs` lines 41-76 (`register_begin`):
validates the email, loads any stored passkey into the credential store,
applies the reset-mode validity match, begins the registration ceremony and
files its state under a fresh id.  `state_id` stands for `Uuid::new_v4()`,
`challenge` for the library's random challenge, `now` for the wall clock; on
success the handler returns the state id (the JSON options payload is not
modelled). -/
def register_begin (p : RegisterBeginPayload) (state_id : String) (challenge : Nat)
    (now : Nat) (st : ServerState) : Except HttpError String × ServerState :=
  match p.email with
  | none => (.error (400, "Email is required"), st)
  | some email =>
    let st := ensure_store_contains_known_user_passkey email st
    let reset_mode := p.reset_mode.getD false
    if registrationRequestValid reset_mode (userExists email st.users) then
      let registration_state := begin_registration email email st.credStore challenge now
      (.ok state_id, { st with regStates := insertKey state_id registration_state st.regStates })
    else
      (.error (400, "Invalid registration request"), st)

/-- The `response` field of a completion request body: present or absent, and
when present it parses into a typed credential or not. -/
structure RawRegCred where
  parsed : Option RegisterPublicKeyCredential
deriving DecidableEq, Repr

/-- Request body of `register_complete`, after boundary parsing.  `first_name`
and `last_name` are the fields when present and accepted by
`TextualContent::try_new_short_form_content` (validation abstracted);
`state_id` is the field when present and parseable as a UUID. -/
structure RegisterCompletePayload where
  email : Option String
  reset_mode : Option Bool
  first_name : Option String
  last_name : Option String
  state_id : Option String
  response : Option RawRegCred
deriving DecidableEq, Repr

/-- From `src/pw2/src/backend/handlers_unauth.rs` lines 79-148
(`register_complete`): validates the request fields, removes the stored
registration state (the removal happens before the response is parsed, so a
consumed state stays consumed whatever happens later), runs
`complete_registration`, reads the freshly stored passkey back from the
credential store (`unwrap`, line 122; its unreachable failure is modelled as
a 500), creates the user row plus verification email when not in reset mode
(token generation and mail delivery are external and not modelled), and
persists the passkey via `user::set_passkey`. -/
def register_complete (p : RegisterCompletePayload) (st : ServerState) :
    Except HttpError Unit × ServerState :=
  match p.email with
  | none => (.error (400, "Email is required"), st)
  | some email =>
  let reset_mode := p.reset_mode.getD false
  match p.first_name with
  | none => (.error (400, "First name is required"), st)
  | some first_name =>
  match p.last_name with
  | none => (.error (400, "Last name is required"), st)
  | some last_name =>
  match p.state_id with
  | none => (.error (400, "Invalid request parameters"), st)
  | some state_id =>
  match lookupKey state_id st.regStates with
  | none => (.error (400, "Invalid registration session"), st)
  | some stored_state =>
    let st := { st with regStates := removeKey state_id st.regStates }
    match p.response.bind (fun r => r.parsed) with
    | none => (.error (400, "Invalid response"), st)
    | some cred =>
      match complete_registration email cred stored_state st.credStore with
      | (.error _, store') => (.error (403, "Failed to complete registration"),
                               { st with credStore := store' })
      | (.ok _, store') =>
        let st := { st with credStore := store' }
        match lookupKey email st.credStore with
        | none => (.error (500, "credential store unwrap failed"), st)
        | some passkey =>
          let st := match reset_mode with
                    | true => st
                    | false =>
                      { st with users := user_create email first_name last_name st.users }
          match user_set_passkey email passkey st.users with
          | none => (.error (500, "Failed to complete registration"), st)
          | some users' => (.ok (), { st with users := users' })

/-- Request body of `login_begin`, after boundary parsing. -/
structure LoginBeginPayload where
  email : Option String
deriving DecidableEq, Repr

/-- From `src/pw2/src/backend/handlers_unauth.rs` lines 151-183 (`login_begin`):
validates the email, loads any stored passkey, rejects with one and the same
error when the user row is absent or unverified, otherwise begins the
authentication ceremony and files its state under a fresh id. -/
def login_begin (p : LoginBeginPayload) (state_id : String) (challenge : Nat)
    (now : Nat) (st : ServerState) : Except HttpError String × ServerState :=
  match p.email with
  | none => (.error (400, "Email is required"), st)
  | some email =>
    let st := ensure_store_contains_known_user_passkey email st
    match lookupKey email st.users with
    | none => (.error (400, "Invalid authentication request"), st)
    | some user_data =>
      if user_data.verified then
        let state := begin_authentication email st.credStore challenge now
        (.ok state_id, { st with authStates := insertKey state_id state st.authStates })
      else
        (.error (400, "Invalid authentication request"), st)

/-- The `response` field of a login completion body: present or absent, and
when present it parses into a typed credential or not. -/
structure RawCred where
  parsed : Option PublicKeyCredential
deriving DecidableEq, Repr

/-- Request body of `login_complete`, after boundary parsing. -/
structure LoginCompletePayload where
  response : Option RawCred
  state_id : Option String
deriving DecidableEq, Repr

/-- From `src/pw2/src/backend/handlers_unauth.rs` lines 186-218
(`login_complete`): checks the response field is present, parses the state
id and the credential, removes the stored authentication state, runs
`complete_authentication` (the source calls it without the unused
server-challenge parameter, passed here as the empty string), and on success
writes `authenticated = true` into the session and redirects to `/home`.
The session is threaded explicitly (in the source it is the request's
`tower_sessions::Session`). -/
def login_complete (p : LoginCompletePayload) (session : Session) (st : ServerState) :
    Except HttpError String × Session × ServerState :=
  match p.response with
  | none => (.error (400, "Response is required"), session, st)
  | some raw =>
  match p.state_id with
  | none => (.error (400, "State ID is required"), session, st)
  | some state_id =>
  match raw.parsed with
  | none => (.error (400, "Invalid response"), session, st)
  | some cred =>
  match lookupKey state_id st.authStates with
  | none => (.error (400, "Invalid authentication session"), session, st)
  | some stored_state =>
    let st := { st with authStates := removeKey state_id st.authStates }
    match complete_authentication cred stored_state "" with
    | .error _ => (.error (400, "Failed to complete authentication"), session, st)
    | .ok _ => (.ok "/home", insertKey "authenticated" (SessionValue.b true) session, st)

/-- The route dispatch of `register_complete`: the handler signature
(`handlers_unauth.rs` line 79) takes no session argument, so the request's
session passes through the registration completion untouched. -/
def register_complete_route (p : RegisterCompletePayload) (session : Session)
    (st : ServerState) : Except HttpError Unit × Session × ServerState :=
  let r := register_complete p st
  (r.1, session, r.2)

/-- From `src/pw2/src/backend/middlewares.rs` lines 18-27
(`SessionUser::from_request_parts`): admit the request exactly when the
request carries a session whose `authenticated` key deserializes as a
boolean (whatever its value); otherwise reject with 401. -/
def from_request_parts (parts : Option Session) : Except HttpError Unit :=
  match parts with
  | some session =>
    if (sessionGetBool "authenticated" session).isSome then .ok ()
    else .error (401, "Unauthorized")
  | none => .error (401, "Unauthorized")

/-- From `src/pw2/src/backend/handlers_unauth.rs` lines 293-301 (`index`):
the page's logged-in flag is computed by the same pattern as the session
guard. -/
def index (session : Session) : Bool :=
  (sessionGetBool "authenticated" session).isSome

/-! Helper lemmas (shared; not tied to any single claim). -/

theorem ensure_store_users (email : String) (st : ServerState) :
    (ensure_store_contains_known_user_passkey email st).users = st.users := by
  unfold ensure_store_contains_known_user_passkey
  cases h : lookupKey email st.credStore
  · cases h2 : user_get_passkey email st.users <;> simp [h, h2]
  · simp [h]

theorem ensure_store_regStates (email : String) (st : ServerState) :
    (ensure_store_contains_known_user_passkey email st).regStates = st.regStates := by
  unfold ensure_store_contains_known_user_passkey
  cases h : lookupKey email st.credStore
  · cases h2 : user_get_passkey email st.users <;> simp [h, h2]
  · simp [h]

theorem ensure_store_authStates (email : String) (st : ServerState) :
    (ensure_store_contains_known_user_passkey email st).authStates = st.authStates := by
  unfold ensure_store_contains_known_user_passkey
  cases h : lookupKey email st.credStore
  · cases h2 : user_get_passkey email st.users <;> simp [h, h2]
  · simp [h]

theorem sessionGetBool_isSome_iff (k : String) (s : Session) :
    (sessionGetBool k s).isSome = true ↔ ∃ x, lookupKey k s = some (SessionValue.b x) := by
  unfold sessionGetBool
  cases h : lookupKey k s with
  | none => simp
  | some v => cases v <;> simp

theorem registrationRequestValid_iff (rm ue : Bool) :
    registrationRequestValid rm ue = true ↔
      (rm = true ∧ ue = true) ∨ (rm = false ∧ ue = false) := by
  cases rm <;> cases ue <;> simp [registrationRequestValid]

/-- C9: the result of `complete_authentication` is independent of its
`server_challenge` argument — for every client response and stored
authentication state and any two challenge strings, the two calls return the
same result (the parameter is never inspected by the function body). -/
theorem complete_authentication_ignores_server_challenge
    (response : PublicKeyCredential) (state : PasskeyAuthentication)
    (c1 c2 : String) :
    complete_authentication response state c1 = complete_authentication response state c2 := rfl

/-- C8: the `SessionUser` guard admits a request exactly when the session
holds a boolean under the `authenticated` key, regardless of the boolean's
value: a session with `authenticated = false` is admitted just like one with
`authenticated = true`, and a session without the key is rejected with 401. -/
theorem session_guard_admits_iff_bool :
    (∀ session : Session,
        from_request_parts (some session) = .ok () ↔
          ∃ x, lookupKey "authenticated" session = some (SessionValue.b x))
    ∧ from_request_parts (some [("authenticated", SessionValue.b false)]) = .ok ()
    ∧ from_request_parts (some [("authenticated", SessionValue.b true)]) = .ok ()
    ∧ from_request_parts (some []) = .error (401, "Unauthorized")
    ∧ from_request_parts none = .error (401, "Unauthorized") := by
  refine ⟨fun session => ?_, rfl, rfl, rfl, rfl⟩
  rw [← sessionGetBool_isSome_iff]
  unfold from_request_parts
  by_cases hs : (sessionGetBool "authenticated" session).isSome = true
  · simp [hs]
  · simp [hs]

/-- C7: the session's `authenticated` attribute is written exactly when an
authentication completion succeeds — `login_complete` returns the session
with `authenticated = true` inserted when it succeeds and the session
untouched when it fails — and a registration completion never touches the
session (its handler takes no session argument, so the route passes the
session through unchanged). -/
theorem session_set_iff_authentication_success :
    (∀ (p : LoginCompletePayload) (session : Session) (st : ServerState),
        (login_complete p session st).2.1 =
          match (login_complete p session st).1 with
          | .ok _ => insertKey "authenticated" (SessionValue.b true) session
          | .error _ => session)
    ∧ (∀ (p : RegisterCompletePayload) (session : Session) (st : ServerState),
        (register_complete_route p session st).2.1 = session) := by
  constructor
  · intro p session st
    obtain ⟨resp, sidO⟩ := p
    cases resp with
    | none => simp [login_complete]
    | some raw =>
      cases sidO with
      | none => simp [login_complete]
      | some sid =>
        cases hr : raw.parsed with
        | none => simp [login_complete, hr]
        | some cred =>
          cases hl : lookupKey sid st.authStates with
          | none => simp [login_complete, hr, hl]
          | some stored =>
            cases hc : complete_authentication cred stored "" with
            | error e => simp [login_complete, hr, hl, hc]
            | ok u => simp [login_complete, hr, hl, hc]
  · intro p session st
    rfl

/-- C10: `register_begin` proceeds past its validity check exactly when
either the client-supplied `reset_mode` flag is true and a user with the
given email exists, or `reset_mode` is false (absent defaulting to false)
and no such user exists; `reset_mode` comes straight from the request body
and no other precondition (such as a recovery token) is consulted — the
equivalence holds for every payload and server state. -/
theorem register_begin_validity_iff (p : RegisterBeginPayload) (email state_id : String)
    (challenge now : Nat) (st : ServerState) (hmail : p.email = some email) :
    ((register_begin p state_id challenge now st).1.isOk = true ↔
      (p.reset_mode.getD false = true ∧ userExists email st.users = true) ∨
      (p.reset_mode.getD false = false ∧ userExists email st.users = false)) := by
  rw [← registrationRequestValid_iff]
  unfold register_begin
  rw [hmail]
  simp only [ensure_store_users]
  by_cases hv : registrationRequestValid (p.reset_mode.getD false) (userExists email st.users) = true
  · simp [hv, Except.isOk, Except.toBool]
  · simp [hv, Except.isOk, Except.toBool]

/-- C10 witness: a concrete payload with `reset_mode` absent and an
unregistered email proceeds past the validity check. -/
theorem register_begin_validity_iff_witness :
    ({ email := some "a@b.c", reset_mode := none } : RegisterBeginPayload).email
      = some "a@b.c" ∧
    ((register_begin { email := some "a@b.c", reset_mode := none } "s1" 7 0
        { regStates := [], authStates := [], credStore := [], users := [] }).1.isOk = true ↔
      (((none : Option Bool).getD false = true ∧ userExists "a@b.c" [] = true) ∨
       ((none : Option Bool).getD false = false ∧ userExists "a@b.c" [] = false))) :=
  ⟨rfl, register_begin_validity_iff
    { email := some "a@b.c", reset_mode := none } "a@b.c" "s1" 7 0
    { regStates := [], authStates := [], credStore := [], users := [] } rfl⟩

/-- C5: for an identity whose user row is absent or whose user row is not
verified, `login_begin` rejects with one and the same error value
(status 400, message "Invalid authentication request") before any challenge
is generated — the authentication ceremony store is left untouched — so the
two causes cannot be distinguished from the rejection. -/
theorem login_begin_generic_rejection (p : LoginBeginPayload) (email state_id : String)
    (challenge now : Nat) (st : ServerState) (hmail : p.email = some email)
    (hcause : lookupKey email st.users = none ∨
      ∃ u, lookupKey email st.users = some u ∧ u.verified = false) :
    (login_begin p state_id challenge now st).1 =
      .error (400, "Invalid authentication request")
    ∧ ((login_begin p state_id challenge now st).2).authStates = st.authStates := by
  unfold login_begin
  rw [hmail]
  simp only
  rw [show lookupKey email (ensure_store_contains_known_user_passkey email st).users
        = lookupKey email st.users by rw [ensure_store_users]]
  rcases hcause with h | ⟨u, hu, hv⟩
  · simp [h, ensure_store_authStates]
  · simp [hu, hv, ensure_store_authStates]

/-- C5 witness: with one concrete server state holding an unverified user
and another holding no user at all, both rejections are produced and the
ceremony store is untouched (so the two rejections are identical). -/
theorem login_begin_generic_rejection_witness :
    ((login_begin { email := some "a@b.c" } "s1" 7 0
        { regStates := [], authStates := [], credStore := [], users := [] }).1 =
      .error (400, "Invalid authentication request")
    ∧ ((login_begin { email := some "a@b.c" } "s1" 7 0
        { regStates := [], authStates := [], credStore := [], users := [] }).2).authStates = [])
    ∧ ((login_begin { email := some "a@b.c" } "s1" 7 0
        { regStates := [], authStates := [], credStore := [],
          users := [("a@b.c",
            { firstName := "A", lastName := "B", verified := false, passkey := none })] }).1 =
      .error (400, "Invalid authentication request")) := by
  constructor
  · exact login_begin_generic_rejection { email := some "a@b.c" } "a@b.c" "s1" 7 0
      { regStates := [], authStates := [], credStore := [], users := [] } rfl (Or.inl rfl)
  · exact (login_begin_generic_rejection { email := some "a@b.c" } "a@b.c" "s1" 7 0
      { regStates := [], authStates := [], credStore := [],
        users := [("a@b.c",
          { firstName := "A", lastName := "B", verified := false, passkey := none })] } rfl
      (Or.inr ⟨_, rfl, rfl⟩)).1

theorem login_complete_consumes (p : LoginCompletePayload) (session : Session)
    (st : ServerState) (sid : String) (raw : RawCred) (cred : PublicKeyCredential)
    (stored : PasskeyAuthentication)
    (h1 : p.response = some raw) (h2 : raw.parsed = some cred)
    (h3 : p.state_id = some sid) (h4 : lookupKey sid st.authStates = some stored) :
    ((login_complete p session st).2.2).authStates = removeKey sid st.authStates := by
  unfold login_complete
  rw [h1, h3]
  simp only [h2, h4]
  cases hc : complete_authentication cred stored "" with
  | error e => simp [hc]
  | ok u => simp [hc]

theorem login_complete_rejects_absent (p : LoginCompletePayload) (session : Session)
    (st : ServerState) (sid : String) (raw : RawCred) (cred : PublicKeyCredential)
    (h1 : p.response = some raw) (h2 : raw.parsed = some cred)
    (h3 : p.state_id = some sid) (h4 : lookupKey sid st.authStates = none) :
    (login_complete p session st).1 = .error (400, "Invalid authentication session") := by
  unfold login_complete
  rw [h1, h3]
  simp [h2, h4]

theorem register_complete_consumes (p : RegisterCompletePayload) (st : ServerState)
    (email fn ln sid : String) (stored : PasskeyRegistration)
    (h1 : p.email = some email) (h2 : p.first_name = some fn) (h3 : p.last_name = some ln)
    (h4 : p.state_id = some sid) (h5 : lookupKey sid st.regStates = some stored) :
    ((register_complete p st).2).regStates = removeKey sid st.regStates := by
  unfold register_complete
  rw [h1, h2, h3, h4]
  simp only [h5]
  cases hresp : p.response.bind (fun r => r.parsed) with
  | none => simp
  | some cred =>
    cases hcr : complete_registration email cred stored st.credStore with
    | mk r store' =>
      cases r with
      | error e =>
        simp [hcr]
      | ok u =>
        simp only [hcr]
        cases hpk : lookupKey email store' with
        | none => simp [hpk]
        | some passkey =>
          simp only [hpk]
          cases hrm : p.reset_mode.getD false with
          | true =>
            cases hsp : user_set_passkey email passkey st.users with
            | none => simp [hsp]
            | some users' => simp [hsp]
          | false =>
            cases hsp : user_set_passkey email passkey
                (user_create email fn ln st.users) with
            | none => simp [hsp]
            | some users' => simp [hsp]

theorem register_complete_rejects_absent (p : RegisterCompletePayload) (st : ServerState)
    (email fn ln sid : String)
    (h1 : p.email = some email) (h2 : p.first_name = some fn) (h3 : p.last_name = some ln)
    (h4 : p.state_id = some sid) (h5 : lookupKey sid st.regStates = none) :
    (register_complete p st).1 = .error (400, "Invalid registration session") := by
  unfold register_complete
  rw [h1, h2, h3, h4]
  simp [h5]

/-- C1: once a complete-call has consumed a stored ceremony state — whether
the verification then succeeds or fails — a later well-formed complete-call
supplying the same `state_id` is rejected with the unknown-ceremony error
(the boundary renders it as status 400 with message
"Invalid authentication session" / "Invalid registration session"): the id
never resolves again, for authentication and registration ceremonies alike. -/
theorem consumed_state_id_never_resolves_again :
    (∀ (p p2 : LoginCompletePayload) (session session2 : Session) (st : ServerState)
        (sid : String) (raw raw2 : RawCred) (cred cred2 : PublicKeyCredential)
        (stored : PasskeyAuthentication),
        p.response = some raw → raw.parsed = some cred → p.state_id = some sid →
        lookupKey sid st.authStates = some stored →
        p2.response = some raw2 → raw2.parsed = some cred2 → p2.state_id = some sid →
        (login_complete p2 session2 ((login_complete p session st).2.2)).1 =
          .error (400, "Invalid authentication session"))
    ∧ (∀ (p p2 : RegisterCompletePayload) (st : ServerState)
        (email fn ln email2 fn2 ln2 sid : String) (stored : PasskeyRegistration),
        p.email = some email → p.first_name = some fn → p.last_name = some ln →
        p.state_id = some sid → lookupKey sid st.regStates = some stored →
        p2.email = some email2 → p2.first_name = some fn2 → p2.last_name = some ln2 →
        p2.state_id = some sid →
        (register_complete p2 ((register_complete p st).2)).1 =
          .error (400, "Invalid registration session")) := by
  constructor
  · intro p p2 session session2 st sid raw raw2 cred cred2 stored
      h1 h2 h3 h4 g1 g2 g3
    have hcons := login_complete_consumes p session st sid raw cred stored h1 h2 h3 h4
    exact login_complete_rejects_absent p2 session2 _ sid raw2 cred2 g1 g2 g3
      (by rw [hcons]; exact lookupKey_removeKey_self sid st.authStates)
  · intro p p2 st email fn ln email2 fn2 ln2 sid stored
      h1 h2 h3 h4 h5 g1 g2 g3 g4
    have hcons := register_complete_consumes p st email fn ln sid stored h1 h2 h3 h4 h5
    exact register_complete_rejects_absent p2 _ email2 fn2 ln2 sid g1 g2 g3 g4
      (by rw [hcons]; exact lookupKey_removeKey_self sid st.regStates)

/-! Concrete fixtures used by witnesses and counterexamples. -/

/-- An enrolled passkey with signature counter 1. -/
def pkA : Passkey := { credId := 1, publicKey := 10, counter := 1 }

/-- A stored authentication ceremony state whose timeout (1 ms after
creation at time 0) has elapsed at any completion time ≥ 1. -/
def authStateA : PasskeyAuthentication :=
  { challenge := 5, allowedCreds := [pkA], createdAt := 0, timeout := 1 }

/-- A well-formed client authentication response for `authStateA` reporting
counter 2. -/
def credA : PublicKeyCredential :=
  { origin := rpOrigin, rpIdHash := rpId, challenge := 5, credId := 1,
    signature := 10, userPresence := true, counter := 2 }

/-- A verified user row owning `pkA`. -/
def userA : UserRecord :=
  { firstName := "A", lastName := "B", verified := true, passkey := some pkA }

/-- Server state with one pending authentication ceremony under id `a1`. -/
def stAuth : ServerState :=
  { regStates := [], authStates := [("a1", authStateA)],
    credStore := [("a@b.c", pkA)], users := [("a@b.c", userA)] }

/-- Login completion payload naming ceremony `a1` with response `credA`. -/
def pLoginA : LoginCompletePayload :=
  { response := some { parsed := some credA }, state_id := some "a1" }

/-- A client authentication response for `authStateA` replaying counter 1,
equal to the stored counter. -/
def credReplay : PublicKeyCredential :=
  { origin := rpOrigin, rpIdHash := rpId, challenge := 5, credId := 1,
    signature := 10, userPresence := true, counter := 1 }

/-- A stored registration ceremony state (timeout elapsed as for
`authStateA`) excluding the already-enrolled credential id 1. -/
def regStateA : PasskeyRegistration :=
  { challenge := 5, excludedCredIds := [1], createdAt := 0, timeout := 1 }

/-- A well-formed client registration response for `regStateA` enrolling a
new credential id 2. -/
def regCredA : RegisterPublicKeyCredential :=
  { origin := rpOrigin, rpIdHash := rpId, challenge := 5, credId := 2,
    publicKey := 20, attestationOk := true, attestationCounter := none }

/-- Registration completion payload (reset mode) naming ceremony `r1`. -/
def pRegA : RegisterCompletePayload :=
  { email := some "a@b.c", reset_mode := some true, first_name := some "A",
    last_name := some "B", state_id := some "r1",
    response := some { parsed := some regCredA } }

/-- Server state with one pending registration ceremony under id `r1`. -/
def stReg : ServerState :=
  { regStates := [("r1", regStateA)], authStates := [],
    credStore := [("a@b.c", pkA)], users := [("a@b.c", userA)] }

/-- C1 witness: replaying the concrete login and registration completions
immediately after they consumed their state is rejected with the
unknown-ceremony error. -/
theorem consumed_state_id_never_resolves_again_witness :
    (login_complete pLoginA [] ((login_complete pLoginA [] stAuth).2.2)).1 =
      .error (400, "Invalid authentication session")
    ∧ (register_complete pRegA ((register_complete pRegA stReg).2)).1 =
      .error (400, "Invalid registration session") :=
  ⟨consumed_state_id_never_resolves_again.1 pLoginA pLoginA [] [] stAuth "a1"
      { parsed := some credA } { parsed := some credA } credA credA authStateA
      rfl rfl rfl rfl rfl rfl rfl,
   consumed_state_id_never_resolves_again.2 pRegA pRegA stReg
      "a@b.c" "A" "B" "a@b.c" "A" "B" "r1" regStateA
      rfl rfl rfl rfl rfl rfl rfl rfl rfl⟩

/-- C2: the completion handlers never consult the clock — a stored ceremony
state whose recorded timeout (1 ms) elapsed long before the complete-call is
still consumed and verified successfully, instead of being treated as absent
and rejected with the unknown-ceremony error.  This evaluates the code at the
failing input for both the authentication and the registration handler. -/
theorem expired_entry_still_consumed :
    authStateA.createdAt + authStateA.timeout = 1
    ∧ (login_complete pLoginA [] stAuth).1 = .ok "/home"
    ∧ regStateA.createdAt + regStateA.timeout = 1
    ∧ (register_complete pRegA stReg).1 = .ok () :=
  ⟨rfl, rfl, rfl, rfl⟩

/-- C3 counterexample: with the enrolled credential's stored counter at 1
and a response reporting counter 2, the authentication completion succeeds —
but the stored counter is NOT updated to the reported value: neither the
credential store nor the user database changes, so the stored counter is
still 1 after the call, refuting the update half of the claim. -/
theorem stored_counter_not_updated_counterexample :
    (login_complete pLoginA [] stAuth).1 = .ok "/home"
    ∧ credA.counter = 2
    ∧ lookupKey "a@b.c" stAuth.credStore = some pkA
    ∧ pkA.counter = 1
    ∧ ((login_complete pLoginA [] stAuth).2.2).credStore = stAuth.credStore
    ∧ ((login_complete pLoginA [] stAuth).2.2).users = stAuth.users :=
  ⟨rfl, rfl, rfl, rfl, rfl, rfl⟩

/-- C3 (amended): a response whose counter is nonzero and not strictly
greater than the stored counter is rejected with
`CounterRegressionDetected`, and a response whose counter is strictly
greater succeeds — but `login_complete` leaves the credential store and the
user database untouched in every case, so the stored counter is never
updated to the reported value. -/
theorem counter_regression_rule_stored_counter_frozen :
    (∀ (response : PublicKeyCredential) (state : PasskeyAuthentication) (cred : Passkey),
        response.origin = rpOrigin → response.rpIdHash = rpId →
        response.challenge = state.challenge →
        state.allowedCreds.find? (fun pk => pk.credId == response.credId) = some cred →
        response.signature = cred.publicKey → response.userPresence = true →
        response.counter ≠ 0 → response.counter ≤ cred.counter →
        finish_passkey_authentication response state = .error .CounterRegressionDetected
        ∧ ∀ c, complete_authentication response state c = .error .CounterRegressionDetected)
    ∧ (∀ (response : PublicKeyCredential) (state : PasskeyAuthentication) (cred : Passkey),
        response.origin = rpOrigin → response.rpIdHash = rpId →
        response.challenge = state.challenge →
        state.allowedCreds.find? (fun pk => pk.credId == response.credId) = some cred →
        response.signature = cred.publicKey → response.userPresence = true →
        cred.counter < response.counter →
        finish_passkey_authentication response state =
          .ok { credId := cred.credId, counter := response.counter }
        ∧ ∀ c, complete_authentication response state c = .ok ())
    ∧ (∀ (p : LoginCompletePayload) (session : Session) (st : ServerState),
        ((login_complete p session st).2.2).credStore = st.credStore
        ∧ ((login_complete p session st).2.2).users = st.users) := by
  refine ⟨?_, ?_, ?_⟩
  · intro r s c h1 h2 h3 h4 h5 h6 h7 h8
    have hfin : finish_passkey_authentication r s = .error .CounterRegressionDetected := by
      unfold finish_passkey_authentication
      simp [h1, h2, h3, h4, h5, h6, h7, Nat.not_lt.mpr h8]
    exact ⟨hfin, fun c0 => by unfold complete_authentication; rw [hfin]⟩
  · intro r s c h1 h2 h3 h4 h5 h6 h8
    have hfin : finish_passkey_authentication r s =
        .ok { credId := c.credId, counter := r.counter } := by
      unfold finish_passkey_authentication
      simp [h1, h2, h3, h4, h5, h6, h8]
    exact ⟨hfin, fun c0 => by unfold complete_authentication; rw [hfin]⟩
  · intro p session st
    obtain ⟨resp, sidO⟩ := p
    cases resp with
    | none => simp [login_complete]
    | some raw =>
      cases sidO with
      | none => simp [login_complete]
      | some sid =>
        cases hr : raw.parsed with
        | none => simp [login_complete, hr]
        | some cred =>
          cases hl : lookupKey sid st.authStates with
          | none => simp [login_complete, hr, hl]
          | some stored =>
            cases hc : complete_authentication cred stored "" with
            | error e => simp [login_complete, hr, hl, hc]
            | ok u => simp [login_complete, hr, hl, hc]

/-- C3 witness: at the concrete fixtures, a replayed counter (1, equal to
the stored counter) is rejected as a regression, and the larger counter 2
verifies successfully with the result reporting the new counter. -/
theorem counter_regression_rule_witness :
    finish_passkey_authentication credReplay authStateA =
      .error .CounterRegressionDetected
    ∧ complete_authentication credReplay authStateA "" =
      .error .CounterRegressionDetected
    ∧ finish_passkey_authentication credA authStateA = .ok { credId := 1, counter := 2 }
    ∧ complete_authentication credA authStateA "" = .ok ()
    ∧ ((login_complete pLoginA [] stAuth).2.2).credStore = stAuth.credStore :=
  ⟨(counter_regression_rule_stored_counter_frozen.1 credReplay authStateA pkA
      rfl rfl rfl rfl rfl rfl (by decide) (by decide)).1,
   (counter_regression_rule_stored_counter_frozen.1 credReplay authStateA pkA
      rfl rfl rfl rfl rfl rfl (by decide) (by decide)).2 "",
   (counter_regression_rule_stored_counter_frozen.2.1 credA authStateA pkA
      rfl rfl rfl rfl rfl rfl (by decide)).1,
   (counter_regression_rule_stored_counter_frozen.2.1 credA authStateA pkA
      rfl rfl rfl rfl rfl rfl (by decide)).2 "",
   (counter_regression_rule_stored_counter_frozen.2.2 pLoginA [] stAuth).1⟩

theorem user_set_passkey_get (email : String) (pk : Passkey)
    (users users' : List (String × UserRecord))
    (h : user_set_passkey email pk users = some users') :
    user_get_passkey email users' = some pk := by
  unfold user_set_passkey at h
  cases hu : lookupKey email users with
  | none => rw [hu] at h; cases h
  | some u =>
    rw [hu] at h
    cases h
    unfold user_get_passkey
    rw [lookupKey_insertKey_self]
    rfl

/-- C4 counterexample: starting from an empty credential store,
`complete_registration` succeeds on a well-formed response and the store
afterwards contains the new passkey — the function performed the storage
itself — and it returns unit, not the constructed credential. -/
theorem complete_registration_storage_counterexample :
    complete_registration "a@b.c" regCredA regStateA [] =
      (.ok (), [("a@b.c", { credId := 2, publicKey := 20, counter := 0 })])
    ∧ ([("a@b.c", ({ credId := 2, publicKey := 20, counter := 0 } : Passkey))] :
        List (String × Passkey)) ≠ [] :=
  ⟨rfl, by simp⟩

/-- C4 (amended): `complete_registration` performs the credential-store
write itself — on success it inserts the newly verified passkey under the
user's email and returns unit (on failure the store is unchanged) — and the
caller `register_complete` then reads that passkey back from the store and
persists it into the user database. -/
theorem complete_registration_performs_storage :
    (∀ (email : String) (response : RegisterPublicKeyCredential)
        (stored : PasskeyRegistration) (store : List (String × Passkey)) (pk : Passkey),
        finish_passkey_registration response stored = .ok pk →
        complete_registration email response stored store = (.ok (), insertKey email pk store))
    ∧ (∀ (email : String) (response : RegisterPublicKeyCredential)
        (stored : PasskeyRegistration) (store : List (String × Passkey)) (e : WebauthnError),
        finish_passkey_registration response stored = .error e →
        complete_registration email response stored store = (.error e, store))
    ∧ (∀ (p : RegisterCompletePayload) (st : ServerState) (email : String),
        p.email = some email →
        (register_complete p st).1 = .ok () →
        ∃ pk, lookupKey email ((register_complete p st).2).credStore = some pk
          ∧ user_get_passkey email ((register_complete p st).2).users = some pk) := by
  refine ⟨?_, ?_, ?_⟩
  · intro email response stored store pk h
    unfold complete_registration
    rw [h]
  · intro email response stored store e h
    unfold complete_registration
    rw [h]
  · intro p st email hmail hok
    obtain ⟨em, rm, fnO, lnO, sidO, respO⟩ := p
    simp only at hmail
    subst hmail
    unfold register_complete at hok ⊢
    simp only at hok ⊢
    cases fnO with
    | none => simp at hok
    | some fn =>
    cases lnO with
    | none => simp at hok
    | some ln =>
    cases sidO with
    | none => simp at hok
    | some sid =>
    simp only at hok
    cases hlk : lookupKey sid st.regStates with
    | none => rw [hlk] at hok; simp at hok
    | some stored =>
    rw [hlk] at hok
    simp only at hok
    cases hresp : respO.bind (fun r => r.parsed) with
    | none => rw [hresp] at hok; simp at hok
    | some cred =>
    rw [hresp] at hok
    simp only at hok
    cases hcr : complete_registration email cred stored st.credStore with
    | mk r store' =>
    rw [hcr] at hok
    cases r with
    | error e => simp at hok
    | ok u =>
    simp only at hok
    cases hpk : lookupKey email store' with
    | none => rw [hpk] at hok; simp at hok
    | some passkey =>
    rw [hpk] at hok
    simp only at hok
    cases hrm : rm.getD false with
    | true =>
      rw [hrm] at hok
      simp only at hok
      cases hsp : user_set_passkey email passkey st.users with
      | none => rw [hsp] at hok; simp at hok
      | some users' =>
        simp only [hlk, hcr, hpk, hsp]
        exact ⟨passkey, rfl, user_set_passkey_get email passkey st.users users' hsp⟩
    | false =>
      rw [hrm] at hok
      simp only at hok
      cases hsp : user_set_passkey email passkey (user_create email fn ln st.users) with
      | none => rw [hsp] at hok; simp at hok
      | some users' =>
        simp only [hlk, hcr, hpk, hsp]
        exact ⟨passkey, rfl,
          user_set_passkey_get email passkey (user_create email fn ln st.users) users' hsp⟩

/-- C4 witness: at the concrete fixtures the success equation and the
failure frame hold, and after the full `register_complete` flow the user
database holds the passkey read back from the credential store. -/
theorem complete_registration_performs_storage_witness :
    complete_registration "a@b.c" regCredA regStateA [("a@b.c", pkA)] =
      (.ok (), insertKey "a@b.c" { credId := 2, publicKey := 20, counter := 0 }
        [("a@b.c", pkA)])
    ∧ complete_registration "a@b.c"
        { regCredA with challenge := 6 } regStateA [("a@b.c", pkA)] =
      (.error .ChallengeMismatch, [("a@b.c", pkA)])
    ∧ ∃ pk, lookupKey "a@b.c" ((register_complete pRegA stReg).2).credStore = some pk
        ∧ user_get_passkey "a@b.c" ((register_complete pRegA stReg).2).users = some pk :=
  ⟨complete_registration_performs_storage.1 "a@b.c" regCredA regStateA [("a@b.c", pkA)]
      { credId := 2, publicKey := 20, counter := 0 } rfl,
   complete_registration_performs_storage.2.1 "a@b.c"
      { regCredA with challenge := 6 } regStateA [("a@b.c", pkA)] .ChallengeMismatch rfl,
   complete_registration_performs_storage.2.2 pRegA stReg "a@b.c" rfl rfl⟩

/-- A pre-existing registration ceremony state filed under id `s1`. -/
def oldRegState : PasskeyRegistration :=
  { challenge := 5, excludedCredIds := [], createdAt := 0, timeout := 60000 }

/-- C6 counterexample: when the freshly generated id collides with an
existing mapping (`s1`), `register_begin` succeeds and the pre-existing
ceremony state is silently overwritten by the new one — the id is neither
regenerated nor does the operation fail. -/
theorem insert_overwrites_counterexample :
    (register_begin { email := some "a@b.c", reset_mode := none } "s1" 7 3
      { regStates := [("s1", oldRegState)], authStates := [], credStore := [],
        users := [] }).1 = .ok "s1"
    ∧ lookupKey "s1" ((register_begin { email := some "a@b.c", reset_mode := none } "s1" 7 3
        { regStates := [("s1", oldRegState)], authStates := [], credStore := [],
          users := [] }).2).regStates =
      some { challenge := 7, excludedCredIds := [], createdAt := 3, timeout := 60000 }
    ∧ ({ challenge := 7, excludedCredIds := [], createdAt := 3, timeout := 60000 } :
        PasskeyRegistration) ≠ oldRegState :=
  ⟨rfl, rfl, by decide⟩

/-- C6 (amended): each begin-call files the new ceremony state under the
freshly generated id unconditionally — mappings under other ids are
untouched, but no collision check is performed, so a pre-existing mapping
under the same id is overwritten rather than the id being regenerated or
the operation failing.  This holds for the registration and the
authentication store alike. -/
theorem begin_insert_unconditional :
    (∀ (p : RegisterBeginPayload) (email state_id : String) (challenge now : Nat)
        (st : ServerState),
        p.email = some email →
        registrationRequestValid (p.reset_mode.getD false) (userExists email st.users) = true →
        lookupKey state_id ((register_begin p state_id challenge now st).2).regStates =
          some (begin_registration email email
            (ensure_store_contains_known_user_passkey email st).credStore challenge now)
        ∧ ∀ k, k ≠ state_id →
            lookupKey k ((register_begin p state_id challenge now st).2).regStates =
              lookupKey k st.regStates)
    ∧ (∀ (p : LoginBeginPayload) (email state_id : String) (challenge now : Nat)
        (st : ServerState) (u : UserRecord),
        p.email = some email →
        lookupKey email st.users = some u → u.verified = true →
        lookupKey state_id ((login_begin p state_id challenge now st).2).authStates =
          some (begin_authentication email
            (ensure_store_contains_known_user_passkey email st).credStore challenge now)
        ∧ ∀ k, k ≠ state_id →
            lookupKey k ((login_begin p state_id challenge now st).2).authStates =
              lookupKey k st.authStates) := by
  constructor
  · intro p email state_id challenge now st hmail hv
    unfold register_begin
    rw [hmail]
    simp only [ensure_store_users] at hv ⊢
    rw [hv]
    simp only [if_true]
    refine ⟨lookupKey_insertKey_self _ _ _, fun k hk => ?_⟩
    rw [lookupKey_insertKey_ne _ _ _ _ hk, ensure_store_regStates]
  · intro p email state_id challenge now st u hmail hu hv
    unfold login_begin
    rw [hmail]
    simp only
    rw [show lookupKey email (ensure_store_contains_known_user_passkey email st).users
          = lookupKey email st.users by rw [ensure_store_users]]
    rw [hu]
    simp only [hv, if_true]
    refine ⟨lookupKey_insertKey_self _ _ _, fun k hk => ?_⟩
    rw [lookupKey_insertKey_ne _ _ _ _ hk, ensure_store_authStates]

/-- C6 witness: at the concrete colliding input of the counterexample, the
new state is found under the colliding id and an unrelated id is unaffected. -/
theorem begin_insert_unconditional_witness :
    lookupKey "s1" ((register_begin { email := some "a@b.c", reset_mode := none } "s1" 7 3
        { regStates := [("s1", oldRegState)], authStates := [], credStore := [],
          users := [] }).2).regStates =
      some (begin_registration "a@b.c" "a@b.c"
        (ensure_store_contains_known_user_passkey "a@b.c"
          { regStates := [("s1", oldRegState)], authStates := [], credStore := [],
            users := [] }).credStore 7 3)
    ∧ lookupKey "zz" ((register_begin { email := some "a@b.c", reset_mode := none } "s1" 7 3
        { regStates := [("s1", oldRegState)], authStates := [], credStore := [],
          users := [] }).2).regStates =
      lookupKey "zz" [("s1", oldRegState)] :=
  ⟨(begin_insert_unconditional.1 { email := some "a@b.c", reset_mode := none }
      "a@b.c" "s1" 7 3
      { regStates := [("s1", oldRegState)], authStates := [], credStore := [], users := [] }
      rfl rfl).1,
   (begin_insert_unconditional.1 { email := some "a@b.c", reset_mode := none }
      "a@b.c" "s1" 7 3
      { regStates := [("s1", oldRegState)], authStates := [], credStore := [], users := [] }
      rfl rfl).2 "zz" (by decide)⟩

end Slh
